import Mathlib

/-!
Verification of the Sprint1 data-validation pipeline.

A shallow embedding of `src/Sprints/Sprint1/mini_project.py`: a sequential
data-quality pipeline of six stages (schema validation, null check, full-row
duplicate check, primary-key duplicate check, business-rule validation,
quality score) over an in-memory table, plus the orchestrator `main`.

Modelling conventions:
* A cell is `Value`: a string, a rational number (standing for the Python
  float; all constants of the program are exactly representable), or null
  (pandas NaN / missing).
* A `Table` is the loaded DataFrame: the ordered column names and the rows,
  each row the list of its cells in column order.
* Each log emission that reports a data problem is modelled as a `Finding`
  carrying its payload; `Finding.severity` records which logger method the
  source calls for it.  Purely informational progress lines (`[OK] ...`,
  step banners, the skip notice) are not findings.
* Python exceptions that escape a stage are modelled by `Option`: integer
  division by zero (ZeroDivisionError, `pyDiv`) and a missing `Story_ID`
  label in `row['Story_ID']` (KeyError) yield `none`, which `main` turns
  into a non-zero exit, as the `except Exception` handler does.
-/

/-- A cell of the loaded table: pandas object string, float64 number
(modelled exactly over ℚ), or NaN/missing. -/
inductive Value
  | null : Value
  | str : String → Value
  | num : ℚ → Value
deriving DecidableEq, Repr

/-- The loaded DataFrame: column names in order, and rows of cells aligned
with the columns. -/
structure Table where
  cols : List String
  rows : List (List Value)
deriving DecidableEq, Repr

/-- `c in df.columns`. -/
def Table.hasCol (t : Table) (c : String) : Bool := t.cols.contains c

/-- `row[c]` for a row of `t`: the cell at column `c`'s position.  Out of
range (column absent) defaults to null; every use in the stages is guarded
by `hasCol` exactly where the source guards with `in df.columns`. -/
def getVal (t : Table) (r : List Value) (c : String) : Value :=
  r.getD (t.cols.findIdx (· == c)) Value.null

/-- `df[c]`: the column as a list of cells. -/
def colVals (t : Table) (c : String) : List Value :=
  t.rows.map (fun r => getVal t r c)

-- ============================================================
-- Configuration (module constants of mini_project.py)
-- ============================================================

/-- `EXPECTED_SCHEMA`: column name to expected dtype string. -/
def EXPECTED_SCHEMA : List (String × String) :=
  [("Sprint", "object"), ("Sprint_Name", "object"), ("Phase", "object"),
   ("Story_ID", "object"), ("Story_Name", "object"), ("Type", "object"),
   ("Description", "object"), ("Tasks", "object"), ("Est_Hours", "float64"),
   ("Resources", "object"), ("Acceptance_Criteria", "object")]

/-- `VALID_VALUES['Phase']`. -/
def VALID_PHASES : List String :=
  ["Foundation", "Core Tools", "Capstone", "Revision", "Advanced Concepts",
   "Software Engineering", "Cloud & Infrastructure", "Interview Prep"]

/-- `VALID_VALUES['Type']`. -/
def VALID_TYPES : List String :=
  ["Setup", "Study", "Practice", "Design", "Implementation", "Documentation",
   "Interview Prep", "Job Search", "Project", "Study & Practice", "Revision"]

def MIN_EST_HOURS : ℚ := 1/2

def MAX_EST_HOURS : ℚ := 100

-- ============================================================
-- Findings and verdicts
-- ============================================================

/-- Python logging levels used by the program. -/
inductive Severity
  | debug | info | warning | error | critical
deriving DecidableEq, Repr

/-- A stage's verdict as the source logs it: `PASSED`, `FAILED`, or
`SKIPPED` (prerequisite column absent). -/
inductive Verdict
  | pass | fail | skipped
deriving DecidableEq, Repr

/-- One problem-reporting log emission, with its payload.  Constructors
follow the source's log calls top to bottom. -/
inductive Finding
  | missingColumns (cols : List String)
  | typeMismatch (col expected actual : String)
  | nullColumn (col : String) (count : Nat) (pct : ℚ)
  | nullRowIdxs (col : String) (idxs : List Nat)
  | fullDupSummary (count : Nat) (rows : List (List Value))
  | keyDupSummary (count : Nat)
  | keyDupKey (key : Value) (count : Nat)
  | keyDupRows (rows : List (List Value))
  | invalidHoursSummary (count : Nat)
  | invalidHoursRow (idx : Nat) (storyId hours : Value)
  | invalidPhaseSummary (count : Nat)
  | invalidPhaseRow (idx : Nat) (storyId phase : Value)
  | invalidTypeSummary (count : Nat)
  | invalidTypeRow (idx : Nat) (storyId typ : Value)
deriving DecidableEq, Repr

/-- The logger method the source uses for each finding:
`logger.error` for missing columns and all key-duplicate findings (whose
messages merely say "CRITICAL"), `logger.debug` for null row indices,
`logger.warning` for everything else. -/
def Finding.severity : Finding → Severity
  | .missingColumns _ => .error
  | .typeMismatch _ _ _ => .warning
  | .nullColumn _ _ _ => .warning
  | .nullRowIdxs _ _ => .debug
  | .fullDupSummary _ _ => .warning
  | .keyDupSummary _ => .error
  | .keyDupKey _ _ => .error
  | .keyDupRows _ => .error
  | .invalidHoursSummary _ => .warning
  | .invalidHoursRow _ _ _ => .warning
  | .invalidPhaseSummary _ => .warning
  | .invalidPhaseRow _ _ _ => .warning
  | .invalidTypeSummary _ => .warning
  | .invalidTypeRow _ _ _ => .warning

-- ============================================================
-- Ordering of cells and rows (for `sort_values(by=list(df.columns))`)
-- ============================================================

/-- A total order on cells, used to render duplicate rows sorted.  Numbers
by numeric order, strings lexicographically, and NaN after everything, as
`sort_values` places NaN last. -/
def Value.leb : Value → Value → Bool
  | .num p, .num q => decide (p ≤ q)
  | .num _, .str _ => true
  | .num _, .null => true
  | .str _, .num _ => false
  | .str a, .str b => decide (a ≤ b)
  | .str _, .null => true
  | .null, .null => true
  | .null, .num _ => false
  | .null, .str _ => false

/-- Lexicographic comparison of rows: compare columns left to right. -/
def rowLeb : List Value → List Value → Bool
  | [], _ => true
  | _ :: _, [] => false
  | a :: as, b :: bs => if a = b then rowLeb as bs else Value.leb a b

/-- `rowLeb` as a relation, for `List.insertionSort` and `List.Sorted`. -/
def rowLe (xs ys : List Value) : Prop := rowLeb xs ys = true

instance : DecidableRel rowLe :=
  fun xs ys => inferInstanceAs (Decidable (rowLeb xs ys = true))

-- ============================================================
-- Stage 1: validate_schema
-- ============================================================

/-- `str(df[c].dtype)` for the loaded table.  A header-only CSV (zero
rows) loads every column as object.  Otherwise: any string cell makes the
column object; a numeric column with no missing value whose every cell is
integer-formatted loads as int64 (the embedding writes an
integer-formatted CSV cell as `num q` with `q.den = 1`, and a cell
carrying a decimal point with a non-trivial denominator); any other
numeric column — a fractional value or a NaN — is float64. -/
def colDtype (t : Table) (c : String) : String :=
  if t.rows.isEmpty then "object"
  else if (colVals t c).any (fun v => match v with | Value.str _ => true | _ => false)
  then "object"
  else if (colVals t c).all
      (fun v => match v with | Value.num q => decide (q.den = 1) | _ => false)
  then "int64"
  else "float64"

/-- Step 1.  Missing expected columns are reported in one error finding and
counted one issue each; each present column whose dtype does not contain
the expected type name is one warning finding and one issue.  (The source
collects the missing names in a Python set; the count and membership are
what matter, the embedding keeps schema order.) -/
def validate_schema (t : Table) : Verdict × List Finding :=
  let missing := (EXPECTED_SCHEMA.map (fun p => p.1)).filter (fun c => !(t.hasCol c))
  let missingF := if missing.isEmpty then [] else [Finding.missingColumns missing]
  let mismatches := EXPECTED_SCHEMA.filterMap (fun p =>
    if t.hasCol p.1 then
      if p.2.toList <:+: (colDtype t p.1).toList then none
      else some (Finding.typeMismatch p.1 p.2 (colDtype t p.1))
    else none)
  let issues := missing.length + mismatches.length
  (if issues = 0 then Verdict.pass else Verdict.fail, missingF ++ mismatches)

-- ============================================================
-- Stage 2: check_nulls
-- ============================================================

/-- `df[c].isnull().sum()`. -/
def nullCount (t : Table) (c : String) : Nat :=
  (colVals t c).countP (fun v => v == Value.null)

/-- `df[df[c].isnull()].index.tolist()`. -/
def nullRowIndices (t : Table) (c : String) : List Nat :=
  (t.rows.enum.filter (fun p => getVal t p.2 c == Value.null)).map (fun p => p.1)

/-- Step 2.  For each column with nulls, one warning finding with the count
and the percentage `(count / len(df)) * 100`, and one debug finding with
the offending row indices.  Pass iff no column has a null.  With zero rows
no column has a null, so the percentage is never computed on an empty
table and the stage passes with no findings. -/
def check_nulls (t : Table) : Verdict × List Finding :=
  let colsWithNulls := t.cols.filter (fun c => decide (0 < nullCount t c))
  if colsWithNulls.isEmpty then (Verdict.pass, [])
  else
    (Verdict.fail,
      (colsWithNulls.map (fun c =>
        [Finding.nullColumn c (nullCount t c)
           (((nullCount t c : ℚ) / (t.rows.length : ℚ)) * 100),
         Finding.nullRowIdxs c (nullRowIndices t c)])).flatten)

-- ============================================================
-- Stage 3: check_full_duplicates
-- ============================================================

/-- `df.duplicated(keep=False).sum()`: the number of rows that have an
identical row somewhere else in the table (symmetric count — every
occurrence of a duplicated row is counted). -/
def symmetricDupCount (t : Table) : Nat :=
  t.rows.countP (fun r => decide (2 ≤ t.rows.count r))

/-- `df[full_dupes_mask].sort_values(by=list(df.columns))`: the duplicated
rows, sorted by all columns left to right. -/
def dupRowsSorted (t : Table) : List (List Value) :=
  List.insertionSort rowLe (t.rows.filter (fun r => decide (2 ≤ t.rows.count r)))

/-- Step 3.  If any full duplicates exist, one warning finding with the
symmetric duplicate-row count and the sorted rendering; fail.  Else pass
with no findings. -/
def check_full_duplicates (t : Table) : Verdict × List Finding :=
  if 0 < symmetricDupCount t then
    (Verdict.fail, [Finding.fullDupSummary (symmetricDupCount t) (dupRowsSorted t)])
  else (Verdict.pass, [])

-- ============================================================
-- Stage 4: check_key_duplicates
-- ============================================================

/-- `df['Story_ID']` as a list of cells. -/
def keyVals (t : Table) : List Value := colVals t "Story_ID"

/-- `df.duplicated(subset=['Story_ID'], keep=False).sum()`. -/
def keyDupMaskCount (t : Table) : Nat :=
  (keyVals t).countP (fun v => decide (2 ≤ (keyVals t).count v))

/-- `df[key_dupes_mask]['Story_ID'].value_counts()`: each duplicated key
value with its occurrence count.  `value_counts()` drops NaN by default,
so a duplicated missing key is counted by the mask and rendered among the
conflicting rows but gets no per-key entry here.  (pandas presents
value_counts sorted by descending count; no claim concerns that
presentation order, and the embedding keeps the keys in last-occurrence
order via `dedup`.) -/
def dupKeyPairs (t : Table) : List (Value × Nat) :=
  ((keyVals t).dedup.filter
      (fun v => !(v == Value.null) && decide (2 ≤ (keyVals t).count v))).map
    (fun v => (v, (keyVals t).count v))

/-- `df[key_dupes_mask]`: the rows whose key value occurs at least twice. -/
def conflictingRows (t : Table) : List (List Value) :=
  t.rows.filter (fun r => decide (2 ≤ (keyVals t).count (getVal t r "Story_ID")))

/-- Step 4.  Skipped (neither pass nor fail) when `Story_ID` is absent.
Otherwise, on any duplicate key: error-severity findings (the messages say
"CRITICAL" but the source calls `logger.error`) — a summary with the row
count, one per duplicated key value with its count, and one rendering all
conflicting rows — and the stage fails.  Pass otherwise. -/
def check_key_duplicates (t : Table) : Verdict × List Finding :=
  if t.hasCol "Story_ID" then
    if 0 < keyDupMaskCount t then
      (Verdict.fail,
        Finding.keyDupSummary (keyDupMaskCount t) ::
          ((dupKeyPairs t).map (fun p => Finding.keyDupKey p.1 p.2) ++
            [Finding.keyDupRows (conflictingRows t)]))
    else (Verdict.pass, [])
  else (Verdict.skipped, [])

-- ============================================================
-- Stage 5: validate_business_logic
-- ============================================================

/-- `(df['Est_Hours'] < MIN_EST_HOURS) | (df['Est_Hours'] > MAX_EST_HOURS)`
for one cell.  A NaN cell compares False on both sides, as in pandas.
The callers first model the TypeError the vectorized comparison raises on
a string-bearing object column (`hoursComparisonRaises`), so this
per-cell predicate is only reached with numeric or missing cells. -/
def hoursOutOfRange (v : Value) : Bool :=
  match v with
  | Value.num q => decide (q < MIN_EST_HOURS) || decide (MAX_EST_HOURS < q)
  | _ => false

/-- Whether `df['Est_Hours'] < MIN_EST_HOURS` raises TypeError: a CSV
column with any non-numeric cell loads as object dtype, and comparing a
string cell against a float is unsupported.  A purely numeric or missing
column (int64/float64) compares silently. -/
def hoursComparisonRaises (t : Table) : Bool :=
  (colVals t "Est_Hours").any (fun v => match v with | Value.str _ => true | _ => false)

/-- `df[c].isin(allowed)` for one cell: NaN (and non-string cells) are not
members. -/
def isinList (v : Value) (allowed : List String) : Bool :=
  match v with
  | Value.str s => allowed.contains s
  | _ => false

/-- The rows (with their index) flagged by the Est_Hours range check. -/
def hoursViolationsIdx (t : Table) : List (Nat × List Value) :=
  t.rows.enum.filter (fun p => hoursOutOfRange (getVal t p.2 "Est_Hours"))

/-- The rows (with their index) flagged by the Phase enum check. -/
def phaseViolationsIdx (t : Table) : List (Nat × List Value) :=
  t.rows.enum.filter (fun p => !(isinList (getVal t p.2 "Phase") VALID_PHASES))

/-- The rows (with their index) flagged by the Type enum check. -/
def typeViolationsIdx (t : Table) : List (Nat × List Value) :=
  t.rows.enum.filter (fun p => !(isinList (getVal t p.2 "Type") VALID_TYPES))

/-- One enum sub-check of step 5 (`isin` raises on no cell): skipped
silently when `col` is absent; otherwise a summary finding plus one
finding per flagged row.  Each per-row log reads `row['Story_ID']`, which
raises KeyError (`none`) when the table has flagged rows but no
`Story_ID` column. -/
def subCheck (t : Table) (col : String) (inv : List (Nat × List Value))
    (mkSummary : Nat → Finding) (mkRow : Nat → Value → Value → Finding) :
    Option (List Finding × Bool) :=
  if t.hasCol col then
    if inv.isEmpty then some ([], false)
    else if t.hasCol "Story_ID" then
      some (mkSummary inv.length ::
        inv.map (fun p => mkRow p.1 (getVal t p.2 "Story_ID") (getVal t p.2 col)),
        true)
    else none
  else some ([], false)

/-- The range sub-check of step 5: like `subCheck`, but the vectorized
comparison itself raises TypeError (`none`) when the Est_Hours column
holds a string cell, before any finding is computed. -/
def hoursSubCheck (t : Table) : Option (List Finding × Bool) :=
  if t.hasCol "Est_Hours" then
    if hoursComparisonRaises t then none
    else
      let inv := hoursViolationsIdx t
      if inv.isEmpty then some ([], false)
      else if t.hasCol "Story_ID" then
        some (Finding.invalidHoursSummary inv.length ::
          inv.map (fun p => Finding.invalidHoursRow p.1 (getVal t p.2 "Story_ID")
            (getVal t p.2 "Est_Hours")),
          true)
      else none
  else some ([], false)

/-- Step 5.  Three sub-checks in order (range, Phase enum, Type enum), no
short-circuit between them, each tolerant of its column's absence; pass iff
none of the sub-checks that ran flagged a row.  `none` models an exception
(the range comparison's TypeError, or the KeyError described at `subCheck`)
escaping the stage; a sub-check that raises stops the later ones, which
`none` absorbs. -/
def validate_business_logic (t : Table) : Option (Verdict × List Finding) :=
  match hoursSubCheck t with
  | none => none
  | some (f1, b1) =>
    match subCheck t "Phase" (phaseViolationsIdx t)
        Finding.invalidPhaseSummary Finding.invalidPhaseRow with
    | none => none
    | some (f2, b2) =>
      match subCheck t "Type" (typeViolationsIdx t)
          Finding.invalidTypeSummary Finding.invalidTypeRow with
      | none => none
      | some (f3, b3) =>
        some (if b1 || b2 || b3 then Verdict.fail else Verdict.pass,
          f1 ++ f2 ++ f3)

-- ============================================================
-- Stage 6: calculate_data_quality_score
-- ============================================================

/-- Python `/` between ints when the divisor may be zero: ZeroDivisionError
is `none`. -/
def pyDiv (a b : ℚ) : Option ℚ := if b = 0 then none else some (a / b)

/-- `df.isnull().sum().sum()`. -/
def nullCells (t : Table) : Nat := (t.cols.map (fun c => nullCount t c)).sum

/-- `df.duplicated().sum()` (keep='first'): rows with an earlier identical
row.  `seen` accumulates the rows already scanned. -/
def firstDupCountAux (seen : List (List Value)) : List (List Value) → Nat
  | [] => 0
  | r :: rest => (if seen.contains r then 1 else 0) + firstDupCountAux (r :: seen) rest

/-- The first-occurrence-exclusive duplicate row count of the scorer. -/
def firstDupCount (rows : List (List Value)) : Nat := firstDupCountAux [] rows

/-- `null_ratio`: percentage of null cells, 0 when the table has no cells
(this division is guarded in the source). -/
def nullPct (t : Table) : ℚ :=
  if 0 < t.rows.length * t.cols.length then
    ((nullCells t : ℚ) / ((t.rows.length * t.cols.length : Nat) : ℚ)) * 100
  else 0

/-- `null_deduction = min(20, null_ratio / 5)`. -/
def nullDeduction (t : Table) : ℚ := min 20 (nullPct t / 5)

/-- `dupe_ratio`: percentage of first-occurrence-exclusive duplicate rows,
0 when the table has no rows (this division is guarded in the source). -/
def dupePct (t : Table) : ℚ :=
  if 0 < t.rows.length then
    ((firstDupCount t.rows : ℚ) / (t.rows.length : ℚ)) * 100
  else 0

/-- `dupe_deduction = min(15, dupe_ratio / 6.67)`. -/
def dupeDeduction (t : Table) : ℚ := min 15 (dupePct t / (667/100))

/-- `len(df[~df['Phase'].isin(VALID_VALUES['Phase'])])`. -/
def invalidPhaseCount (t : Table) : Nat :=
  (t.rows.filter (fun r => !(isinList (getVal t r "Phase") VALID_PHASES))).length

/-- `len(df[(df['Est_Hours'] < MIN_EST_HOURS) | (df['Est_Hours'] > MAX_EST_HOURS)])`. -/
def invalidHoursCount (t : Table) : Nat :=
  (t.rows.filter (fun r => hoursOutOfRange (getVal t r "Est_Hours"))).length

/-- Deduction 3, run only when Phase is present.  The source divides the
invalid-Phase row count by `len(df)` without a guard, so a zero-row table
raises ZeroDivisionError (`none`). -/
def phaseEntry (t : Table) : Option (List (String × ℚ)) :=
  if t.hasCol "Phase" then
    (pyDiv (invalidPhaseCount t : ℚ) (t.rows.length : ℚ)).map
      (fun dq => [("Invalid Phase", min 15 (dq * 100 / (667/100)))])
  else some []

/-- Deduction 4, run only when Est_Hours is present.  Its filter repeats
the range comparison of step 5, so a string-bearing Est_Hours column
raises TypeError here too; and the division by `len(df)` is unguarded
exactly as for `phaseEntry`. -/
def hoursEntry (t : Table) : Option (List (String × ℚ)) :=
  if t.hasCol "Est_Hours" then
    if hoursComparisonRaises t then none
    else
      (pyDiv (invalidHoursCount t : ℚ) (t.rows.length : ℚ)).map
        (fun dq => [("Invalid Hours", min 10 (dq * 100 / 10))])
  else some []

/-- `rating` from the final score. -/
def ratingOf (score : ℚ) : String :=
  if 90 ≤ score then "EXCELLENT"
  else if 70 ≤ score then "GOOD"
  else if 50 ≤ score then "FAIR (needs work)"
  else "POOR (critical issues)"

/-- What step 6 reports: the final score, its rating, the deduction dict in
insertion order, and the breakdown (only strictly positive deductions). -/
structure ScoreResult where
  score : ℚ
  rating : String
  deductions : List (String × ℚ)
  breakdown : List (String × ℚ)
deriving DecidableEq, Repr

/-- Step 6.  `score = max(0, 100 - d1 - d2 - d3 - d4)` (the sequential
subtractions equal subtracting the sum); `none` when deduction 3 or 4
raises ZeroDivisionError.  In the source deduction 3 raises first; the
observable outcome (the stage aborts) is the same either way. -/
def calculate_data_quality_score (t : Table) : Option ScoreResult :=
  match phaseEntry t, hoursEntry t with
  | some ep, some eh =>
    let deds := [("NULLs", nullDeduction t), ("Duplicates", dupeDeduction t)] ++ ep ++ eh
    let score := max 0 (100 - ((deds.map (fun p => p.2)).sum))
    some { score := score, rating := ratingOf score, deductions := deds,
           breakdown := deds.filter (fun p => decide (0 < p.2)) }
  | _, _ => none

-- ============================================================
-- Orchestrator: main
-- ============================================================

/-- What the loading collaborator (`pd.read_csv`) yields: a table, or one
of the three load failures `main` distinguishes (FileNotFoundError,
EmptyDataError, anything else). -/
inductive LoadResult
  | notFound
  | emptyFile
  | otherError
  | ok (t : Table)
deriving DecidableEq, Repr

/-- Which `except` branch of `main` fired. -/
inductive FailKind
  | fileNotFound | emptyData | unexpected
deriving DecidableEq, Repr

/-- The six-stage report of a completed run. -/
structure FullReport where
  schemaR : Verdict × List Finding
  nullsR : Verdict × List Finding
  fullDupR : Verdict × List Finding
  keyDupR : Verdict × List Finding
  businessR : Verdict × List Finding
  scoreR : ScoreResult
deriving DecidableEq, Repr

/-- A run's outcome: the completed six-stage report, or `sys.exit(1)` after
a log at the given severity, classified by `except` branch. -/
inductive RunResult
  | completed (rep : FullReport)
  | exited (logSev : Severity) (kind : FailKind)
deriving DecidableEq, Repr

/-- True iff the run completed (exit status zero). -/
def RunResult.completedOk : RunResult → Bool
  | .completed _ => true
  | .exited _ _ => false

namespace Pipeline

/-- `main`: on a load failure, `logger.critical` and `sys.exit(1)` in the
matching `except` branch; on a loaded table, the six stages run in order
inside the `try`, and an exception escaping a stage (the `Option.none`
cases) reaches `except Exception` — a critical log and `sys.exit(1)`
classified unexpected.  A stage 5 exception keeps stage 6 from running; the
match evaluating both changes nothing observable (`exited` either way). -/
def main : LoadResult → RunResult
  | .notFound => .exited .critical .fileNotFound
  | .emptyFile => .exited .critical .emptyData
  | .otherError => .exited .critical .unexpected
  | .ok t =>
    match validate_business_logic t, calculate_data_quality_score t with
    | some r5, some r6 =>
      .completed ⟨validate_schema t, check_nulls t, check_full_duplicates t,
        check_key_duplicates t, r5, r6⟩
    | _, _ => .exited .critical .unexpected

end Pipeline

-- ============================================================
-- Concrete tables used by witnesses and counterexamples
-- ============================================================

/-- A zero-row table that still has the Phase column (a CSV with only a
header line loads like this). -/
def TPhase0 : Table := { cols := ["Phase"], rows := [] }

/-- A zero-row table with the Est_Hours column. -/
def THours0 : Table := { cols := ["Est_Hours"], rows := [] }

/-- One loaded row whose Est_Hours is out of range, with no Story_ID
column: the business-rule stage's per-row log raises KeyError. -/
def THoursNoKey : Table := { cols := ["Est_Hours"], rows := [[Value.num 200]] }

/-- A loadable table whose Est_Hours column holds a string cell ("TBD"):
the column is object dtype and the range comparison raises TypeError. -/
def TStrHours : Table :=
  { cols := ["Est_Hours", "Story_ID"], rows := [[Value.str "TBD", Value.str "S1"]] }

/-- A clean one-row table: valid phase, in-range hours, unique key. -/
def TOk : Table :=
  { cols := ["Story_ID", "Phase", "Est_Hours"],
    rows := [[Value.str "S1", Value.str "Foundation", Value.num 5]] }

/-- Step 6's report on `TOk`. -/
def ROk : ScoreResult :=
  { score := 100, rating := "EXCELLENT",
    deductions := [("NULLs", 0), ("Duplicates", 0), ("Invalid Phase", 0), ("Invalid Hours", 0)],
    breakdown := [] }

/-- Two rows with the same Story_ID. -/
def TKeyDup : Table :=
  { cols := ["Story_ID"], rows := [[Value.str "S1"], [Value.str "S1"]] }

/-- A duplicated string key and a duplicated missing key side by side. -/
def TNullKeys : Table :=
  { cols := ["Story_ID"],
    rows := [[Value.str "S1"], [Value.str "S1"], [Value.null], [Value.null]] }

/-- Two identical rows. -/
def TPairDup : Table := { cols := ["A"], rows := [[Value.num 1], [Value.num 1]] }

/-- Exactly one identical pair among three rows: the scorer's
first-occurrence-exclusive duplicate count is 1, the symmetric count 2. -/
def TOnePair : Table :=
  { cols := ["A"], rows := [[Value.num 7], [Value.num 7], [Value.num 8]] }

/-- Step 6's report on `TOnePair`. -/
def ROnePair : ScoreResult :=
  { score := 190100/2001, rating := "EXCELLENT",
    deductions := [("NULLs", 0), ("Duplicates", 10000/2001)],
    breakdown := [("Duplicates", 10000/2001)] }

/-- A null cell and a numeric cell in one column. -/
def TNull : Table := { cols := ["A"], rows := [[Value.null], [Value.num 1]] }

/-- An Est_Hours column with a missing value, an out-of-range value and an
in-range value. -/
def TMixedHours : Table :=
  { cols := ["Est_Hours"],
    rows := [[Value.null], [Value.num 200], [Value.num 5]] }

-- ============================================================
-- Helper lemmas: the row order is total and transitive
-- ============================================================

theorem Value.leb_total (a b : Value) : a.leb b = true ∨ b.leb a = true := by
  cases a <;> cases b <;>
    simp only [Value.leb, decide_eq_true_eq] <;>
    first
      | tauto
      | exact le_total _ _

theorem Value.leb_antisymm {a b : Value} (hab : a.leb b = true)
    (hba : b.leb a = true) : a = b := by
  cases a <;> cases b <;>
    simp only [Value.leb, decide_eq_true_eq] at hab hba <;>
    first
      | rfl
      | exact congrArg _ (le_antisymm hab hba)
      | simp at hab
      | simp at hba

theorem Value.leb_trans {a b c : Value} (hab : a.leb b = true)
    (hbc : b.leb c = true) : a.leb c = true := by
  cases a <;> cases b <;> cases c <;>
    simp only [Value.leb, decide_eq_true_eq] at hab hbc ⊢ <;>
    first
      | trivial
      | exact le_trans hab hbc

theorem rowLeb_total : ∀ xs ys : List Value, rowLeb xs ys = true ∨ rowLeb ys xs = true
  | [], [] => Or.inl rfl
  | [], _ :: _ => Or.inl rfl
  | _ :: _, [] => Or.inr rfl
  | x :: xs, y :: ys => by
    by_cases h : x = y
    · subst h
      simpa [rowLeb] using rowLeb_total xs ys
    · simpa [rowLeb, h, Ne.symm h] using Value.leb_total x y

theorem rowLeb_trans : ∀ {xs ys zs : List Value}, rowLeb xs ys = true →
    rowLeb ys zs = true → rowLeb xs zs = true
  | [], _, _, _, _ => rfl
  | _ :: _, [], _, hxy, _ => by simp [rowLeb] at hxy
  | _ :: _, _ :: _, [], _, hyz => by simp [rowLeb] at hyz
  | x :: xs, y :: ys, z :: zs, hxy, hyz => by
    by_cases hxyv : x = y <;> by_cases hyzv : y = z
    · subst hxyv; subst hyzv
      simp only [rowLeb, if_pos rfl] at hxy hyz ⊢
      exact rowLeb_trans hxy hyz
    · subst hxyv
      simp only [rowLeb, if_pos rfl, if_neg hyzv] at hxy hyz ⊢
      exact hyz
    · subst hyzv
      simp only [rowLeb, if_pos rfl, if_neg hxyv] at hxy hyz ⊢
      exact hxy
    · simp only [rowLeb, if_neg hxyv, if_neg hyzv] at hxy hyz
      have hxzv : x ≠ z := by
        intro h
        subst h
        exact hyzv (Value.leb_antisymm hyz hxy)
      simp only [rowLeb, if_neg hxzv]
      exact Value.leb_trans hxy hyz

instance : IsTotal (List Value) rowLe := ⟨rowLeb_total⟩

instance : IsTrans (List Value) rowLe := ⟨fun _ _ _ => rowLeb_trans⟩

/-- Two distinct positions holding the same element force a count of at
least two. -/
theorem two_le_count_of_getElem {α : Type} [BEq α] [LawfulBEq α] {l : List α} {a : α}
    {i j : Nat} (hij : i < j) (hi : l[i]? = some a) (hj : l[j]? = some a) :
    2 ≤ l.count a := by
  have hd : (l.drop (i + 1))[j - (i + 1)]? = some a := by
    rw [List.getElem?_drop]
    have : i + 1 + (j - (i + 1)) = j := by omega
    rw [this]
    exact hj
  have hmem1 : a ∈ l.take (i + 1) := by
    have ht : (l.take (i + 1))[i]? = some a := by
      rw [List.getElem?_take, if_pos (Nat.lt_succ_self i)]
      exact hi
    exact List.getElem?_mem ht
  have hmem2 : a ∈ l.drop (i + 1) := List.getElem?_mem hd
  calc 2 = 1 + 1 := rfl
    _ ≤ (l.take (i + 1)).count a + (l.drop (i + 1)).count a :=
        Nat.add_le_add (List.count_pos_iff.mpr hmem1) (List.count_pos_iff.mpr hmem2)
    _ = l.count a := by rw [← List.count_append, List.take_append_drop]

-- ============================================================
-- Helper lemmas: the scorer's deductions are nonnegative
-- ============================================================

theorem nullPct_nonneg (t : Table) : 0 ≤ nullPct t := by
  unfold nullPct
  split
  · positivity
  · exact le_refl 0

theorem nullDeduction_nonneg (t : Table) : 0 ≤ nullDeduction t :=
  le_min (by norm_num) (div_nonneg (nullPct_nonneg t) (by norm_num))

theorem dupePct_nonneg (t : Table) : 0 ≤ dupePct t := by
  unfold dupePct
  split
  · positivity
  · exact le_refl 0

theorem dupeDeduction_nonneg (t : Table) : 0 ≤ dupeDeduction t :=
  le_min (by norm_num) (div_nonneg (dupePct_nonneg t) (by norm_num))

theorem phaseEntry_sum_nonneg {t : Table} {ep : List (String × ℚ)}
    (h : phaseEntry t = some ep) : 0 ≤ (ep.map (fun p => p.2)).sum := by
  unfold phaseEntry pyDiv at h
  split at h
  · split at h
    · cases h
    · simp only [Option.map_some', Option.some.injEq] at h
      subst h
      simp only [List.map_cons, List.map_nil, List.sum_cons, List.sum_nil, add_zero]
      have hq : (0 : ℚ) ≤ (invalidPhaseCount t : ℚ) / (t.rows.length : ℚ) :=
        div_nonneg (by positivity) (by positivity)
      exact le_min (by norm_num) (by positivity)
  · simp only [Option.some.injEq] at h
    subst h
    simp

theorem hoursEntry_sum_nonneg {t : Table} {eh : List (String × ℚ)}
    (h : hoursEntry t = some eh) : 0 ≤ (eh.map (fun p => p.2)).sum := by
  unfold hoursEntry pyDiv at h
  split at h
  · split at h
    · cases h
    · split at h
      · cases h
      · simp only [Option.map_some', Option.some.injEq] at h
        subst h
        simp only [List.map_cons, List.map_nil, List.sum_cons, List.sum_nil, add_zero]
        have hq : (0 : ℚ) ≤ (invalidHoursCount t : ℚ) / (t.rows.length : ℚ) :=
          div_nonneg (by positivity) (by positivity)
        exact le_min (by norm_num) (by positivity)
  · simp only [Option.some.injEq] at h
    subst h
    simp

/-- What a successful step 6 run returns, in terms of its pieces. -/
theorem scorer_spec {t : Table} {r : ScoreResult}
    (h : calculate_data_quality_score t = some r) :
    ∃ ep eh, phaseEntry t = some ep ∧ hoursEntry t = some eh ∧
      r.deductions =
        [("NULLs", nullDeduction t), ("Duplicates", dupeDeduction t)] ++ ep ++ eh ∧
      r.score = max 0 (100 - ((r.deductions.map (fun p => p.2)).sum)) ∧
      r.rating = ratingOf r.score ∧
      r.breakdown = r.deductions.filter (fun p => decide (0 < p.2)) := by
  unfold calculate_data_quality_score at h
  cases hp : phaseEntry t <;> rw [hp] at h
  · cases h
  · cases hh : hoursEntry t <;> rw [hh] at h
    · cases h
    · simp only [Option.some.injEq] at h
      subst h
      exact ⟨_, _, rfl, rfl, rfl, rfl, rfl, rfl⟩

/-- The sum of all of a successful run's deduction values is nonnegative. -/
theorem deductions_sum_nonneg {t : Table} {r : ScoreResult}
    (h : calculate_data_quality_score t = some r) :
    0 ≤ (r.deductions.map (fun p => p.2)).sum := by
  obtain ⟨ep, eh, hp, hh, hd, -, -, -⟩ := scorer_spec h
  rw [hd]
  simp only [List.map_append, List.sum_append]
  have h1 := nullDeduction_nonneg t
  have h2 := dupeDeduction_nonneg t
  have h3 := phaseEntry_sum_nonneg hp
  have h4 := hoursEntry_sum_nonneg hh
  simp only [List.map_cons, List.map_nil, List.sum_cons, List.sum_nil, add_zero]
  linarith

/-- The rating bands, as an iff for each rating string. -/
theorem ratingOf_iff (s : ℚ) :
    (ratingOf s = "EXCELLENT" ↔ 90 ≤ s)
    ∧ (ratingOf s = "GOOD" ↔ 70 ≤ s ∧ s < 90)
    ∧ (ratingOf s = "FAIR (needs work)" ↔ 50 ≤ s ∧ s < 70)
    ∧ (ratingOf s = "POOR (critical issues)" ↔ s < 50) := by
  unfold ratingOf
  split_ifs with h1 h2 h3 <;>
    refine ⟨?_, ?_, ?_, ?_⟩ <;>
    simp_all <;>
    first
      | linarith
      | (intro h; linarith)

-- ============================================================
-- Claims
-- ============================================================

/-- C1: the claim says the QualityScorer stage always completes, its
Invalid-Phase / Invalid-hours deductions well-defined even on a zero-row
table that has the Phase or Est_Hours column.  The code divides by the row
count without a guard there: on such tables the stage raises
ZeroDivisionError instead of reporting a score, and the run aborts. -/
theorem c1_scorer_zero_rows_faults :
    calculate_data_quality_score TPhase0 = none
    ∧ calculate_data_quality_score THours0 = none
    ∧ Pipeline.main (LoadResult.ok TPhase0) =
        RunResult.exited Severity.critical FailKind.unexpected := by
  refine ⟨rfl, rfl, rfl⟩

/-- C9: each load failure kind is fatal, logged at critical severity, with
its own classification (`except FileNotFoundError` / `EmptyDataError` /
`Exception` branch), the process exits non-zero, and no stage report is
produced. -/
theorem c9_load_failure_kinds :
    Pipeline.main LoadResult.notFound =
      RunResult.exited Severity.critical FailKind.fileNotFound
    ∧ Pipeline.main LoadResult.emptyFile =
        RunResult.exited Severity.critical FailKind.emptyData
    ∧ Pipeline.main LoadResult.otherError =
        RunResult.exited Severity.critical FailKind.unexpected
    ∧ RunResult.completedOk (Pipeline.main LoadResult.notFound) = false
    ∧ RunResult.completedOk (Pipeline.main LoadResult.emptyFile) = false
    ∧ RunResult.completedOk (Pipeline.main LoadResult.otherError) = false
    ∧ FailKind.fileNotFound ≠ FailKind.emptyData
    ∧ FailKind.fileNotFound ≠ FailKind.unexpected
    ∧ FailKind.emptyData ≠ FailKind.unexpected := by
  refine ⟨rfl, rfl, rfl, rfl, rfl, rfl, by decide, by decide, by decide⟩

/-- C2 counterexample: two successfully loaded one-row tables abort the
run instead of completing the six stages, refuting "every issue arising
inside a validation stage is contained within that stage": on
`THoursNoKey` (Est_Hours = 200, no Story_ID column) the business-rule
stage raises KeyError at its per-row log, and on `TStrHours` (Est_Hours =
"TBD") its vectorized range comparison raises TypeError. -/
theorem c2_counterexample :
    Pipeline.main (LoadResult.ok THoursNoKey) =
      RunResult.exited Severity.critical FailKind.unexpected
    ∧ RunResult.completedOk (Pipeline.main (LoadResult.ok THoursNoKey)) = false
    ∧ Pipeline.main (LoadResult.ok TStrHours) =
        RunResult.exited Severity.critical FailKind.unexpected
    ∧ RunResult.completedOk (Pipeline.main (LoadResult.ok TStrHours)) = false := by
  with_unfolding_all decide

/-- C2 (amended): for every successfully loaded table on which no stage
raises an uncaught exception (stage 5 and stage 6 return a result), the
pipeline runs all six stages to completion and does not exit non-zero. -/
theorem c2_run_completes (t : Table) (r5 : Verdict × List Finding) (r6 : ScoreResult)
    (h5 : validate_business_logic t = some r5)
    (h6 : calculate_data_quality_score t = some r6) :
    Pipeline.main (LoadResult.ok t) =
      RunResult.completed ⟨validate_schema t, check_nulls t, check_full_duplicates t,
        check_key_duplicates t, r5, r6⟩
    ∧ RunResult.completedOk (Pipeline.main (LoadResult.ok t)) = true := by
  have hm : Pipeline.main (LoadResult.ok t) =
      RunResult.completed ⟨validate_schema t, check_nulls t, check_full_duplicates t,
        check_key_duplicates t, r5, r6⟩ := by
    simp only [Pipeline.main]
    rw [h5, h6]
  exact ⟨hm, by rw [hm]; rfl⟩

/-- C2 witness: the clean one-row table completes all six stages. -/
theorem c2_witness :
    Pipeline.main (LoadResult.ok TOk) =
      RunResult.completed ⟨validate_schema TOk, check_nulls TOk, check_full_duplicates TOk,
        check_key_duplicates TOk, (Verdict.pass, []), ROk⟩
    ∧ RunResult.completedOk (Pipeline.main (LoadResult.ok TOk)) = true :=
  c2_run_completes TOk (Verdict.pass, []) ROk (by with_unfolding_all decide)
    (by with_unfolding_all decide)

-- Branch characterizations of check_key_duplicates.

theorem check_key_dup_skip {t : Table} (h : t.hasCol "Story_ID" = false) :
    check_key_duplicates t = (Verdict.skipped, []) := by
  unfold check_key_duplicates
  rw [h]
  rfl

theorem check_key_dup_fail {t : Table} (h : t.hasCol "Story_ID" = true)
    (hn : 0 < keyDupMaskCount t) :
    check_key_duplicates t =
      (Verdict.fail,
        Finding.keyDupSummary (keyDupMaskCount t) ::
          ((dupKeyPairs t).map (fun p => Finding.keyDupKey p.1 p.2) ++
            [Finding.keyDupRows (conflictingRows t)])) := by
  unfold check_key_duplicates
  rw [h, if_pos rfl, if_pos hn]

theorem check_key_dup_pass {t : Table} (h : t.hasCol "Story_ID" = true)
    (hn : ¬ 0 < keyDupMaskCount t) :
    check_key_duplicates t = (Verdict.pass, []) := by
  unfold check_key_duplicates
  rw [h, if_pos rfl, if_neg hn]

theorem keyDupMaskCount_pos_iff (t : Table) :
    0 < keyDupMaskCount t ↔ ∃ v ∈ keyVals t, 2 ≤ (keyVals t).count v := by
  unfold keyDupMaskCount
  rw [List.countP_pos_iff]
  simp

/-- C3 counterexample: on two rows sharing Story_ID "S1" the stage fails
and emits the per-key duplicate finding, but no finding of the stage has
critical severity (the source logs them all with `logger.error`), refuting
the claim's "critical-severity finding". -/
theorem c3_counterexample :
    (check_key_duplicates TKeyDup).1 = Verdict.fail
    ∧ Finding.keyDupKey (Value.str "S1") 2 ∈ (check_key_duplicates TKeyDup).2
    ∧ (check_key_duplicates TKeyDup).2.filter
        (fun f => f.severity == Severity.critical) = [] := by
  with_unfolding_all decide

/-- C3 (amended): KeyDupChecker skips (neither pass nor fail, no findings)
without Story_ID; with it, it fails iff some key value occurs in at least
two rows, emits one error-severity finding per duplicated non-missing key
naming the key and its occurrence count plus one error-severity finding
rendering all conflicting rows, and passes iff there are no duplicate
keys.  The messages say "CRITICAL" but are logged at error severity, and a
duplicated missing key is counted by the mask and rendered among the
conflicting rows but gets no per-key finding (`value_counts()` drops
NaN). -/
theorem c3_key_dup_checker (t : Table) :
    (t.hasCol "Story_ID" = false → check_key_duplicates t = (Verdict.skipped, []))
    ∧ (t.hasCol "Story_ID" = true →
        (((check_key_duplicates t).1 = Verdict.fail ↔
            ∃ v ∈ keyVals t, 2 ≤ (keyVals t).count v)
          ∧ (∀ v ∈ keyVals t, 2 ≤ (keyVals t).count v → v ≠ Value.null →
              Finding.keyDupKey v ((keyVals t).count v) ∈ (check_key_duplicates t).2)
          ∧ (∀ n, Finding.keyDupKey Value.null n ∉ (check_key_duplicates t).2)
          ∧ ((check_key_duplicates t).1 = Verdict.fail →
              Finding.keyDupRows (conflictingRows t) ∈ (check_key_duplicates t).2)
          ∧ (∀ f ∈ (check_key_duplicates t).2, f.severity = Severity.error)
          ∧ ((check_key_duplicates t).1 = Verdict.pass ↔ keyDupMaskCount t = 0))) := by
  refine ⟨fun hcol => check_key_dup_skip hcol, fun hcol => ?_⟩
  by_cases hn : 0 < keyDupMaskCount t
  · rw [check_key_dup_fail hcol hn]
    refine ⟨?_, ?_, ?_, ?_, ?_, ?_⟩
    · exact iff_of_true rfl ((keyDupMaskCount_pos_iff t).mp hn)
    · intro v hv hcnt hnull
      apply List.mem_cons_of_mem
      apply List.mem_append_left
      apply List.mem_map.mpr
      refine ⟨(v, (keyVals t).count v), ?_, rfl⟩
      unfold dupKeyPairs
      apply List.mem_map.mpr
      refine ⟨v, ?_, rfl⟩
      apply List.mem_filter.mpr
      refine ⟨List.mem_dedup.mpr hv, ?_⟩
      rw [Bool.and_eq_true]
      constructor
      · simpa using hnull
      · simpa using hcnt
    · intro n hmem
      rcases List.mem_cons.mp hmem with heq | hf2
      · cases heq
      rcases List.mem_append.mp hf2 with hmap | hlast
      · obtain ⟨p, hp, heq⟩ := List.mem_map.mp hmap
        obtain ⟨v, hvf, rfl⟩ := List.mem_map.mp hp
        injection heq with h1 h2
        have hv0 : v = Value.null := h1
        have hpred := (List.mem_filter.mp hvf).2
        rw [hv0] at hpred
        simp at hpred
      · rcases List.mem_singleton.mp hlast with heq
        cases heq
    · intro _
      apply List.mem_cons_of_mem
      apply List.mem_append_right
      simp
    · intro f hf
      rcases List.mem_cons.mp hf with rfl | hf2
      · rfl
      rcases List.mem_append.mp hf2 with hmap | hlast
      · obtain ⟨p, -, rfl⟩ := List.mem_map.mp hmap
        rfl
      · rcases List.mem_singleton.mp hlast with rfl
        rfl
    · refine iff_of_false (fun h => by cases h) (fun h0 => ?_)
      omega
  · have h0 : keyDupMaskCount t = 0 := Nat.eq_zero_of_not_pos hn
    rw [check_key_dup_pass hcol hn]
    refine ⟨?_, ?_, ?_, ?_, ?_, ?_⟩
    · refine iff_of_false (fun h => by cases h) (fun hex => ?_)
      exact hn ((keyDupMaskCount_pos_iff t).mpr hex)
    · intro v hv hcnt hnull
      exact absurd ((keyDupMaskCount_pos_iff t).mpr ⟨v, hv, hcnt⟩) hn
    · intro n hmem
      cases hmem
    · intro hfail
      cases hfail
    · intro f hf
      cases hf
    · exact iff_of_true rfl h0

/-- C3 witness: the amended statement at the four-row table holding a
duplicated string key and a duplicated missing key — the stage fails, the
string key gets its per-key finding and the missing key gets none. -/
theorem c3_witness :
    (TNullKeys.hasCol "Story_ID" = false →
      check_key_duplicates TNullKeys = (Verdict.skipped, []))
    ∧ (TNullKeys.hasCol "Story_ID" = true →
        (((check_key_duplicates TNullKeys).1 = Verdict.fail ↔
            ∃ v ∈ keyVals TNullKeys, 2 ≤ (keyVals TNullKeys).count v)
          ∧ (∀ v ∈ keyVals TNullKeys, 2 ≤ (keyVals TNullKeys).count v → v ≠ Value.null →
              Finding.keyDupKey v ((keyVals TNullKeys).count v)
                ∈ (check_key_duplicates TNullKeys).2)
          ∧ (∀ n, Finding.keyDupKey Value.null n ∉ (check_key_duplicates TNullKeys).2)
          ∧ ((check_key_duplicates TNullKeys).1 = Verdict.fail →
              Finding.keyDupRows (conflictingRows TNullKeys)
                ∈ (check_key_duplicates TNullKeys).2)
          ∧ (∀ f ∈ (check_key_duplicates TNullKeys).2, f.severity = Severity.error)
          ∧ ((check_key_duplicates TNullKeys).1 = Verdict.pass ↔
              keyDupMaskCount TNullKeys = 0))) :=
  c3_key_dup_checker TNullKeys

-- Zero-deduction helpers for a clean table.

theorem nullDeduction_zero {t : Table} (h : nullCells t = 0) : nullDeduction t = 0 := by
  unfold nullDeduction nullPct
  rw [h]
  split
  · rw [Nat.cast_zero, zero_div, zero_mul, zero_div]
    exact min_eq_right (by norm_num)
  · rw [zero_div]
    exact min_eq_right (by norm_num)

theorem dupeDeduction_zero {t : Table} (h : firstDupCount t.rows = 0) :
    dupeDeduction t = 0 := by
  unfold dupeDeduction dupePct
  rw [h]
  split
  · rw [Nat.cast_zero, zero_div, zero_mul, zero_div]
    exact min_eq_right (by norm_num)
  · rw [zero_div]
    exact min_eq_right (by norm_num)

theorem phaseEntry_sum_zero {t : Table} {ep : List (String × ℚ)}
    (hp : phaseEntry t = some ep) (h : invalidPhaseCount t = 0) :
    (ep.map (fun p => p.2)).sum = 0 := by
  unfold phaseEntry pyDiv at hp
  split at hp
  · split at hp
    · cases hp
    · simp only [Option.map_some', Option.some.injEq] at hp
      subst hp
      simp only [List.map_cons, List.map_nil, List.sum_cons, List.sum_nil, add_zero]
      rw [h, Nat.cast_zero, zero_div, zero_mul, zero_div]
      exact min_eq_right (by norm_num)
  · simp only [Option.some.injEq] at hp
    subst hp
    simp

theorem hoursEntry_sum_zero {t : Table} {eh : List (String × ℚ)}
    (hh : hoursEntry t = some eh) (h : invalidHoursCount t = 0) :
    (eh.map (fun p => p.2)).sum = 0 := by
  unfold hoursEntry pyDiv at hh
  split at hh
  · split at hh
    · cases hh
    · split at hh
      · cases hh
      · simp only [Option.map_some', Option.some.injEq] at hh
        subst hh
        simp only [List.map_cons, List.map_nil, List.sum_cons, List.sum_nil, add_zero]
        rw [h, Nat.cast_zero, zero_div, zero_mul, zero_div]
        exact min_eq_right (by norm_num)
  · simp only [Option.some.injEq] at hh
    subst hh
    simp

/-- C4: whenever the scorer completes, the score is in [0, 100] and equals
`max 0 (100 - sum of the deductions taken)`, the rating bands are as
specified, and a table with no nulls, no (first-occurrence) duplicate rows
and no invalid Phase/Est_Hours values scores exactly 100 with rating
EXCELLENT. -/
theorem c4_quality_score (t : Table) (r : ScoreResult)
    (h : calculate_data_quality_score t = some r) :
    0 ≤ r.score ∧ r.score ≤ 100
    ∧ r.score = max 0 (100 - ((r.deductions.map (fun p => p.2)).sum))
    ∧ (r.rating = "EXCELLENT" ↔ 90 ≤ r.score)
    ∧ (r.rating = "GOOD" ↔ 70 ≤ r.score ∧ r.score < 90)
    ∧ (r.rating = "FAIR (needs work)" ↔ 50 ≤ r.score ∧ r.score < 70)
    ∧ (r.rating = "POOR (critical issues)" ↔ r.score < 50)
    ∧ (nullCells t = 0 → firstDupCount t.rows = 0 → invalidPhaseCount t = 0 →
        invalidHoursCount t = 0 → r.score = 100 ∧ r.rating = "EXCELLENT") := by
  obtain ⟨ep, eh, hp, hh, hd, hs, hr, -⟩ := scorer_spec h
  have hsum := deductions_sum_nonneg h
  have hscore0 : 0 ≤ r.score := hs ▸ le_max_left 0 _
  have hscore100 : r.score ≤ 100 := by
    rw [hs]
    exact max_le (by norm_num) (by linarith)
  have hbands := ratingOf_iff r.score
  refine ⟨hscore0, hscore100, hs, hr ▸ hbands.1, hr ▸ hbands.2.1, hr ▸ hbands.2.2.1,
    hr ▸ hbands.2.2.2, ?_⟩
  intro h1 h2 h3 h4
  have hzero : (r.deductions.map (fun p => p.2)).sum = 0 := by
    rw [hd]
    simp only [List.map_append, List.sum_append, List.map_cons, List.map_nil,
      List.sum_cons, List.sum_nil, add_zero]
    rw [nullDeduction_zero h1, dupeDeduction_zero h2,
      phaseEntry_sum_zero hp h3, hoursEntry_sum_zero hh h4]
    norm_num
  have hs100 : r.score = 100 := by
    rw [hs, hzero]
    norm_num
  refine ⟨hs100, ?_⟩
  rw [hr, hs100]
  norm_num [ratingOf]

/-- C4 witness: the clean one-row table's report, with score exactly 100
and rating EXCELLENT. -/
theorem c4_witness :
    0 ≤ ROk.score ∧ ROk.score ≤ 100
    ∧ ROk.score = max 0 (100 - ((ROk.deductions.map (fun p => p.2)).sum))
    ∧ (ROk.rating = "EXCELLENT" ↔ 90 ≤ ROk.score)
    ∧ (ROk.rating = "GOOD" ↔ 70 ≤ ROk.score ∧ ROk.score < 90)
    ∧ (ROk.rating = "FAIR (needs work)" ↔ 50 ≤ ROk.score ∧ ROk.score < 70)
    ∧ (ROk.rating = "POOR (critical issues)" ↔ ROk.score < 50)
    ∧ (nullCells TOk = 0 → firstDupCount TOk.rows = 0 → invalidPhaseCount TOk = 0 →
        invalidHoursCount TOk = 0 → ROk.score = 100 ∧ ROk.rating = "EXCELLENT") :=
  c4_quality_score TOk ROk (by with_unfolding_all decide)

/-- C5: with the Est_Hours column present, a row is flagged by the range
check iff its numeric value is strictly below the minimum or strictly
above the maximum; a value exactly at either bound is not flagged. -/
theorem c5_hours_range_boundary (t : Table) (i : Nat) (r : List Value) (q : ℚ)
    (hcol : t.hasCol "Est_Hours" = true)
    (hq : getVal t r "Est_Hours" = Value.num q) :
    ((i, r) ∈ hoursViolationsIdx t ↔
      ((i, r) ∈ t.rows.enum ∧ (q < MIN_EST_HOURS ∨ MAX_EST_HOURS < q)))
    ∧ ((q = MIN_EST_HOURS ∨ q = MAX_EST_HOURS) → (i, r) ∉ hoursViolationsIdx t) := by
  have hmem : (i, r) ∈ hoursViolationsIdx t ↔
      ((i, r) ∈ t.rows.enum ∧ (q < MIN_EST_HOURS ∨ MAX_EST_HOURS < q)) := by
    unfold hoursViolationsIdx
    rw [List.mem_filter]
    have hpred : hoursOutOfRange (getVal t (i, r).2 "Est_Hours") = true ↔
        (q < MIN_EST_HOURS ∨ MAX_EST_HOURS < q) := by
      show hoursOutOfRange (getVal t r "Est_Hours") = true ↔ _
      rw [hq]
      simp [hoursOutOfRange]
    rw [hpred]
  refine ⟨hmem, fun hb hin => ?_⟩
  rcases hb with rfl | rfl <;> rcases (hmem.mp hin).2 with hv | hv <;>
    norm_num [MIN_EST_HOURS, MAX_EST_HOURS] at hv

/-- C5 witness: the single row with Est_Hours = 200 is flagged, and 200 is
at neither bound. -/
theorem c5_witness :
    ((0, [Value.num 200]) ∈ hoursViolationsIdx THoursNoKey ↔
      ((0, [Value.num 200]) ∈ THoursNoKey.rows.enum ∧
        ((200 : ℚ) < MIN_EST_HOURS ∨ MAX_EST_HOURS < (200 : ℚ))))
    ∧ (((200 : ℚ) = MIN_EST_HOURS ∨ (200 : ℚ) = MAX_EST_HOURS) →
        (0, [Value.num 200]) ∉ hoursViolationsIdx THoursNoKey) :=
  c5_hours_range_boundary THoursNoKey 0 [Value.num 200] 200
    (by with_unfolding_all decide) (by with_unfolding_all decide)

/-- C6: every null-column finding reports the column's null count and the
percentage `100 * count / row_count`; a zero-row table passes with no
findings (no percentage is ever computed there); the stage passes iff no
column contains a null. -/
theorem c6_null_checker (t : Table) :
    (∀ c cnt pct, Finding.nullColumn c cnt pct ∈ (check_nulls t).2 →
      cnt = nullCount t c ∧ pct = 100 * (cnt : ℚ) / (t.rows.length : ℚ) ∧ 0 < cnt)
    ∧ (t.rows = [] → check_nulls t = (Verdict.pass, []))
    ∧ ((check_nulls t).1 = Verdict.pass ↔ ∀ c ∈ t.cols, nullCount t c = 0) := by
  refine ⟨?_, ?_, ?_⟩
  · intro c cnt pct hf
    unfold check_nulls at hf
    rw [apply_ite Prod.snd] at hf
    split at hf
    · cases hf
    · rw [List.mem_flatten] at hf
      obtain ⟨l2, hl2, hfin⟩ := hf
      obtain ⟨c2, hc2, rfl⟩ := List.mem_map.mp hl2
      have hpos : 0 < nullCount t c2 := by
        have := (List.mem_filter.mp hc2).2
        simpa using this
      rcases List.mem_cons.mp hfin with heq | hfin2
      · injection heq with e1 e2 e3
        subst e1
        subst e2
        subst e3
        refine ⟨rfl, by ring, hpos⟩
      · rcases List.mem_singleton.mp hfin2 with heq
        cases heq
  · intro hrows
    have hfilter : t.cols.filter (fun c => decide (0 < nullCount t c)) = [] := by
      rw [List.filter_eq_nil_iff]
      intro c _
      unfold nullCount colVals
      rw [hrows]
      simp
    unfold check_nulls
    rw [hfilter]
    rfl
  · unfold check_nulls
    by_cases hL : t.cols.filter (fun c => decide (0 < nullCount t c)) = []
    · rw [hL]
      rw [List.filter_eq_nil_iff] at hL
      exact iff_of_true rfl (fun c hc => by
        have := hL c hc
        simpa using this)
    · rw [if_neg (by simpa [List.isEmpty_iff] using hL)]
      refine iff_of_false (fun hv => by cases hv) (fun hall => ?_)
      apply hL
      rw [List.filter_eq_nil_iff]
      intro c hc
      simp [hall c hc]

/-- C6 witness: the statement at a table with one null and one numeric
cell in its single column. -/
theorem c6_witness :
    (∀ c cnt pct, Finding.nullColumn c cnt pct ∈ (check_nulls TNull).2 →
      cnt = nullCount TNull c ∧ pct = 100 * (cnt : ℚ) / (TNull.rows.length : ℚ) ∧ 0 < cnt)
    ∧ (TNull.rows = [] → check_nulls TNull = (Verdict.pass, []))
    ∧ ((check_nulls TNull).1 = Verdict.pass ↔ ∀ c ∈ TNull.cols, nullCount TNull c = 0) :=
  c6_null_checker TNull

/-- C7: full-duplicate detection is symmetric — for every table, any two
identical rows at distinct positions are both counted in the reported
total and the rendered set holds both occurrences, and then exactly one
warning finding is emitted with the count and the rendered rows; the
rendering is sorted by all columns left to right; and the stage passes iff
the duplicate-row count is 0 (over all tables, duplicate-free ones
included). -/
theorem c7_full_duplicates (t : Table) :
    (∀ i j : Nat, ∀ r : List Value, i ≠ j → t.rows[i]? = some r → t.rows[j]? = some r →
      2 ≤ symmetricDupCount t
      ∧ 2 ≤ (dupRowsSorted t).count r
      ∧ check_full_duplicates t =
          (Verdict.fail, [Finding.fullDupSummary (symmetricDupCount t) (dupRowsSorted t)]))
    ∧ (Finding.fullDupSummary (symmetricDupCount t) (dupRowsSorted t)).severity
        = Severity.warning
    ∧ List.Sorted rowLe (dupRowsSorted t)
    ∧ ((check_full_duplicates t).1 = Verdict.pass ↔ symmetricDupCount t = 0) := by
  refine ⟨?_, rfl, List.sorted_insertionSort rowLe _, ?_⟩
  · intro i j r hij hi hj
    have hcount : 2 ≤ t.rows.count r := by
      rcases Nat.lt_or_ge i j with hlt | hge
      · exact two_le_count_of_getElem hlt hi hj
      · exact two_le_count_of_getElem (lt_of_le_of_ne hge (Ne.symm hij)) hj hi
    have hsym : 2 ≤ symmetricDupCount t := by
      unfold symmetricDupCount
      calc 2 ≤ t.rows.count r := hcount
        _ = t.rows.countP (· == r) := rfl
        _ ≤ t.rows.countP (fun x => decide (2 ≤ t.rows.count x)) := by
            apply List.countP_mono_left
            intro a _ ha
            have haa : a = r := by simpa using ha
            subst haa
            simpa using hcount
    have hsortcount : 2 ≤ (dupRowsSorted t).count r := by
      have hperm := List.perm_insertionSort rowLe
        (t.rows.filter (fun x => decide (2 ≤ t.rows.count x)))
      have h1 : (dupRowsSorted t).count r
          = (t.rows.filter (fun x => decide (2 ≤ t.rows.count x))).count r := by
        unfold dupRowsSorted List.count
        exact hperm.countP_eq _
      rw [h1, List.count_filter (by simpa using hcount)]
      exact hcount
    refine ⟨hsym, hsortcount, ?_⟩
    unfold check_full_duplicates
    rw [if_pos (by omega)]
  · unfold check_full_duplicates
    by_cases hn : 0 < symmetricDupCount t
    · rw [if_pos hn]
      exact iff_of_false (fun hv => by cases hv) (by omega)
    · rw [if_neg hn]
      exact iff_of_true rfl (by omega)

/-- C7 witness: the statement at the table of two identical one-cell
rows. -/
theorem c7_witness :
    (∀ i j : Nat, ∀ r : List Value, i ≠ j →
      TPairDup.rows[i]? = some r → TPairDup.rows[j]? = some r →
      2 ≤ symmetricDupCount TPairDup
      ∧ 2 ≤ (dupRowsSorted TPairDup).count r
      ∧ check_full_duplicates TPairDup =
          (Verdict.fail,
            [Finding.fullDupSummary (symmetricDupCount TPairDup) (dupRowsSorted TPairDup)]))
    ∧ (Finding.fullDupSummary (symmetricDupCount TPairDup)
        (dupRowsSorted TPairDup)).severity = Severity.warning
    ∧ List.Sorted rowLe (dupRowsSorted TPairDup)
    ∧ ((check_full_duplicates TPairDup).1 = Verdict.pass ↔ symmetricDupCount TPairDup = 0) :=
  c7_full_duplicates TPairDup

/-- C8: the scorer's Duplicates deduction uses the first-occurrence-
exclusive duplicate count in `min(15, (count / row_count * 100) / 6.67)`
(0 when there are no rows), and on a table with exactly one identical pair
of rows that count (1) is strictly smaller than FullDuplicateChecker's
symmetric count (2). -/
theorem c8_dupe_deduction (t : Table) (r : ScoreResult)
    (h : calculate_data_quality_score t = some r) :
    List.lookup "Duplicates" r.deductions = some (dupeDeduction t)
    ∧ dupeDeduction t =
        min 15 ((if 0 < t.rows.length then
            ((firstDupCount t.rows : ℚ) / (t.rows.length : ℚ)) * 100 else 0) / (667/100))
    ∧ (t.rows.length = 0 → dupeDeduction t = 0)
    ∧ firstDupCount TOnePair.rows = 1
    ∧ symmetricDupCount TOnePair = 2
    ∧ firstDupCount TOnePair.rows < symmetricDupCount TOnePair := by
  obtain ⟨ep, eh, hp, hh, hd, -, -, -⟩ := scorer_spec h
  refine ⟨?_, rfl, ?_, by with_unfolding_all decide, by with_unfolding_all decide,
    by with_unfolding_all decide⟩
  · rw [hd]
    rfl
  · intro h0
    unfold dupeDeduction dupePct
    rw [h0, if_neg (by omega), zero_div]
    exact min_eq_right (by norm_num)

/-- Concrete evaluation of step 6 on the one-identical-pair table. -/
theorem score_TOnePair : calculate_data_quality_score TOnePair = some ROnePair := by
  have hphase : phaseEntry TOnePair = some [] := by
    unfold phaseEntry
    rw [if_neg (by decide)]
  have hhours : hoursEntry TOnePair = some [] := by
    unfold hoursEntry
    rw [if_neg (by decide)]
  have hnull : nullDeduction TOnePair = 0 := nullDeduction_zero (by decide)
  have hdupe : dupeDeduction TOnePair = 10000/2001 := by
    unfold dupeDeduction dupePct
    rw [if_pos (by decide)]
    rw [show firstDupCount TOnePair.rows = 1 by decide]
    rw [show TOnePair.rows.length = 3 from rfl]
    rw [min_eq_right (by norm_num)]
    norm_num
  unfold calculate_data_quality_score
  rw [hphase, hhours]
  simp only [List.append_nil]
  rw [hnull, hdupe]
  norm_num [ROnePair, ratingOf, List.filter]

/-- C8 witness: the one-identical-pair table, whose report records the
Duplicates deduction. -/
theorem c8_witness :
    List.lookup "Duplicates" ROnePair.deductions = some (dupeDeduction TOnePair)
    ∧ dupeDeduction TOnePair =
        min 15 ((if 0 < TOnePair.rows.length then
            ((firstDupCount TOnePair.rows : ℚ) / (TOnePair.rows.length : ℚ)) * 100
          else 0) / (667/100))
    ∧ (TOnePair.rows.length = 0 → dupeDeduction TOnePair = 0)
    ∧ firstDupCount TOnePair.rows = 1
    ∧ symmetricDupCount TOnePair = 2
    ∧ firstDupCount TOnePair.rows < symmetricDupCount TOnePair :=
  c8_dupe_deduction TOnePair ROnePair score_TOnePair

/-- C10: a missing (null) Est_Hours value is never flagged by the range
check and never counted by the scorer's invalid-hours count: NaN compares
False on both strict comparisons, so only numeric out-of-range cells are
flagged. -/
theorem c10_null_hours_never_flagged (t : Table) :
    (∀ p ∈ hoursViolationsIdx t, getVal t p.2 "Est_Hours" ≠ Value.null)
    ∧ hoursOutOfRange Value.null = false
    ∧ invalidHoursCount t =
        (t.rows.filter (fun row => !(getVal t row "Est_Hours" == Value.null)
          && hoursOutOfRange (getVal t row "Est_Hours"))).length := by
  refine ⟨?_, rfl, ?_⟩
  · intro p hp hnull
    have hpred := (List.mem_filter.mp hp).2
    rw [hnull] at hpred
    cases hpred
  · unfold invalidHoursCount
    congr 1
    apply List.filter_congr
    intro row _
    cases hv : getVal t row "Est_Hours" <;> simp [hoursOutOfRange]

/-- C10 witness: the mixed column — the null row is not flagged, the 200
row is, and the count ignores the null cell. -/
theorem c10_witness :
    (∀ p ∈ hoursViolationsIdx TMixedHours,
      getVal TMixedHours p.2 "Est_Hours" ≠ Value.null)
    ∧ hoursOutOfRange Value.null = false
    ∧ invalidHoursCount TMixedHours =
        (TMixedHours.rows.filter
          (fun row => !(getVal TMixedHours row "Est_Hours" == Value.null)
            && hoursOutOfRange (getVal TMixedHours row "Est_Hours"))).length :=
  c10_null_hours_never_flagged TMixedHours
